import Mathlib

/-!
Verification of the ai-chess-engine repository's evaluation and API-route
logic against its natural-language specification.

The chess rule engine itself (move legality, check/checkmate/stalemate
detection) is the external chess.js library, declared out of scope by the
specification.  We therefore model a chess.js game instance abstractly, as a
record of exactly the observations the repository's code makes of it
(`turn()`, `isCheckmate()`, `board()`, `moves()`, ...), and translate the
repository's own TypeScript functions over that interface.
-/

/-- chess.js piece type symbols: p, n, b, r, q, k. -/
inductive PType
  | p | n | b | r | q | k
deriving DecidableEq, Repr

/-- One entry of `game.board()`: a piece with a color (`white = true` models
color `'w'`) and a type. -/
structure Piece where
  white : Bool
  ptype : PType
deriving DecidableEq, Repr

/-- One entry of `game.moves({ verbose: true })` as consumed by the
chess-move-2 route: mover color, mover piece, from/to squares, the captured
piece type when the move is a capture, and the SAN string. -/
structure VMove where
  colorWhite : Bool
  piece : PType
  fromSq : String
  toSq : String
  captured : Option PType
  san : String
deriving DecidableEq, Repr

/-- Abstract state of one chess.js `Chess` instance, holding exactly the
observations this repository's code makes of the engine:

* `turnWhite` models `turn() === 'w'`;
* `isCheckmate`, `isStalemate`, `isThreefoldRepetition`,
  `isInsufficientMaterial`, `isCheck` model the like-named predicates;
* `isFiftyMoves` models the 50-move-rule component (`_halfMoves >= 100`)
  of chess.js's `isDraw()`;
* `board` models `board().flat()` (64 entries, rank 8 file a first);
* `legalMovesSan` models `moves()` (the SAN strings of all legal moves);
* `verboseMoves` models `moves({ verbose: true })`;
* `historyLen` models `history().length` (also
  `history({ verbose: true }).length`, which has the same length);
* `fullmoveNumber` is the FEN full-move counter of the position;
* `moveAccepted s` models "`move(s)` does not throw": chess.js v1 accepts a
  string iff its (permissive) SAN parser resolves it to a legal move;
* `moveGivesCheck s` models `isCheck()` of the position after playing the
  accepted move `s`. -/
structure Game where
  turnWhite : Bool
  isCheckmate : Bool
  isStalemate : Bool
  isThreefoldRepetition : Bool
  isInsufficientMaterial : Bool
  isFiftyMoves : Bool
  isCheck : Bool
  board : List (Option Piece)
  legalMovesSan : List String
  verboseMoves : List VMove
  historyLen : Nat
  fullmoveNumber : Nat
  moveAccepted : String → Bool
  moveGivesCheck : String → Bool

/-- chess.js `isDraw()`: 50-move rule, stalemate, insufficient material, or
threefold repetition. -/
def Game.isDraw (g : Game) : Bool :=
  g.isFiftyMoves || g.isStalemate || g.isInsufficientMaterial ||
    g.isThreefoldRepetition

/-- chess.js `isGameOver()`: checkmate, stalemate, or draw. -/
def Game.isGameOver (g : Game) : Bool :=
  g.isCheckmate || g.isStalemate || g.isDraw

namespace SimpleEval

/-- `PIECE_VALUES` from `src/lib/simple-eval.ts`: standard material values
(the king is not counted).  The table is total on piece types, so the
JavaScript `|| 0` fallback never fires. -/
def PIECE_VALUES : PType → Int
  | .p => 1
  | .n => 3
  | .b => 3
  | .r => 5
  | .q => 9
  | .k => 0

/-- The material-summing loop of `evaluateBoard`: for every occupied square
add the piece value for White and subtract it for Black. -/
def materialScore (board : List (Option Piece)) : Int :=
  board.foldl
    (fun acc sq =>
      match sq with
      | some pc => acc + (if pc.white then PIECE_VALUES pc.ptype
                          else -(PIECE_VALUES pc.ptype))
      | none => acc)
    0

/-- `evaluateBoard` from `src/lib/simple-eval.ts`.  Checkmate is checked
first (±100, negative when the side to move is White); then any of
`isDraw() || isThreefoldRepetition() || isInsufficientMaterial()` yields 0;
otherwise the signed material sum is returned.  The JavaScript
`parseFloat(materialScore.toFixed(1))` is the identity on the integer scores
produced here (all piece values are integers), so the result is an `Int`. -/
def evaluateBoard (g : Game) : Int :=
  if g.isCheckmate then
    (if g.turnWhite then -100 else 100)
  else if g.isDraw || g.isThreefoldRepetition || g.isInsufficientMaterial then
    0
  else
    materialScore g.board

/-- Stated from the specification's words, for comparison with the code:
"signed score = Σ(piece value × sign(color)) over all occupied squares,
using values \x7bpawn:1, knight:3, bishop:3, rook:5, queen:9, king:0\x7d". -/
def specPieceValue : PType → Int
  | .p => 1
  | .n => 3
  | .b => 3
  | .r => 5
  | .q => 9
  | .k => 0

/-- The specification's signed material sum over all occupied squares. -/
def specMaterialScore (board : List (Option Piece)) : Int :=
  (board.map
    (fun sq =>
      match sq with
      | some pc => (if pc.white then specPieceValue pc.ptype
                    else -(specPieceValue pc.ptype))
      | none => 0)).sum

end SimpleEval

/-- JavaScript `s.includes(pat)` for the non-empty literal patterns used by
the route's error handler: `pat` occurs as a contiguous substring of `s`. -/
def strHas (s pat : String) : Bool :=
  decide (List.IsInfix pat.data s.data)

/-- JavaScript `s.toLowerCase()` for the ASCII error messages used by the
route: lower-case every character. -/
def lowerStr (s : String) : String :=
  ⟨s.data.map Char.toLower⟩

namespace ChessMoveApi

/-- Outcome of `new Chess(fen)` inside the route.  chess.js v1 throws an
`Error` whose message starts with `"Invalid FEN: "` when the FEN string is
malformed; otherwise it yields a loaded game. -/
inductive LoadResult
  | invalidFen (detail : String)
  | ok (g : Game)

/-- The parsed request body of a POST to `/api/chess-move`:
`request.json()` threw; the body had no (or a falsy) `fen` field; or it
carried a `fen` string, represented by its load outcome. -/
inductive ReqBody
  | invalidJson
  | missingFen
  | withFen (load : LoadResult)

/-- Outcome of the `openai.chat.completions.create` call:
a quota/rate-limit failure (`apiError.code === 'insufficient_quota'` or
`apiError.status === 429`), any other thrown error, or a completed call
whose trimmed message content is `none` when missing or empty (both are
falsy, triggering the `'No move returned from AI'` error). -/
inductive AiOutcome
  | quotaError (msg : String)
  | otherError (msg : String)
  | success (content : Option String)

/-- `selectModel` from `src/app/api/chess-move/route.ts`. -/
def selectModel (moveCount : Nat) : String :=
  if moveCount > 30 then "gpt-4" else "gpt-3.5-turbo"

/-- `createChessGame` from `src/app/api/chess-move/route.ts`: throws
`'Game is already over'` when `isGameOver() || isDraw()`. -/
def createChessGame : LoadResult → Except String Game
  | .invalidFen detail => .error ("Invalid FEN: " ++ detail)
  | .ok g =>
      if g.isGameOver || g.isDraw then .error "Game is already over"
      else .ok g

/-- The game-phase ternary of `getChessPrompt` in
`src/app/api/chess-move/route.ts` (lines 42-43 and 82):
`isOpening = game.history().length < 10`,
`isEndgame = game.history().length > 30`, phase string
`isOpening ? 'Opening' : isEndgame ? 'Endgame' : 'Middlegame'`.
The `game` there is `new Chess(fen)`, freshly constructed from the request
FEN, so its `history()` is the empty array. -/
def gamePhase (g : Game) : String :=
  let isOpening := g.historyLen < 10
  let isEndgame := g.historyLen > 30
  if isOpening then "Opening" else if isEndgame then "Endgame"
  else "Middlegame"

/-- `validateMove` from `src/app/api/chess-move/route.ts`: return the AI
move when `new Chess(fen).move(move)` does not throw, otherwise fall back to
`legalMoves[Math.floor(Math.random() * legalMoves.length)]` — modelled by an
arbitrary natural `rand` reduced mod the list length; the JavaScript index
is `undefined` (here `none`) when the list is empty. -/
def validateMove (g : Game) (move : String) (rand : Nat) : Option String :=
  if g.moveAccepted move then some move
  else g.legalMovesSan.get? (rand % g.legalMovesSan.length)

/-- The draw-reason selection in the route's `isDraw()` branch. -/
def drawReason (g : Game) : String :=
  if g.isStalemate then "stalemate"
  else if g.isThreefoldRepetition then "threefold repetition"
  else if g.isInsufficientMaterial then "insufficient material"
  else "draw"

/-- The JSON response of the route: HTTP status plus the optional body
fields the route ever sets (`none` models an absent field).  The
development-only `stack` field is omitted. -/
structure ApiResponse where
  status : Nat
  error : Option String := none
  move : Option String := none
  warning : Option String := none
  originalError : Option String := none
  gameOver : Option Bool := none
  winner : Option (Option String) := none
  reason : Option String := none
  turn : Option String := none
  inCheck : Option Bool := none
  message : Option String := none
deriving DecidableEq, Repr

/-- The route's outer `catch` block: status 400 when the lower-cased message
contains `'already over'` or `'invalid fen'`, else 500; the body's
`gameOver` flag is set from substring tests on the raw message. -/
def catchResponse (msg : String) : ApiResponse :=
  let statusCode :=
    if strHas (lowerStr msg) "already over" || strHas (lowerStr msg) "invalid fen"
    then 400 else 500
  { status := statusCode,
    error := some msg,
    gameOver := some (strHas msg "Game over" || strHas msg "Checkmate" ||
      strHas msg "drawn") }

/-- The success response built after `validateMove`:
`gameAfterMove = createChessGame(fen)` replays the (not-yet-finished)
position and applies the validated move, so `turn()` afterwards is the
opponent of the request position's side to move, and `isCheck()` afterwards
is `moveGivesCheck` of the validated move. -/
def successResponse (g : Game) (validatedMove : String) : ApiResponse :=
  let turnWhiteAfter := !g.turnWhite
  let turnStr := if turnWhiteAfter then "white" else "black"
  let chk := g.moveGivesCheck validatedMove
  { status := 200,
    move := some validatedMove,
    turn := some turnStr,
    inCheck := some chk,
    gameOver := some false,
    message := if chk then
        some ("Check! " ++ (if turnWhiteAfter then "White" else "Black") ++
          " is in check.")
      else none }

/-- The `POST` handler of `src/app/api/chess-move/route.ts`, as a function
of the parsed request body, the outcome of the external model call, and the
random draw used for fallback moves.  Control flow mirrors the source:
JSON/fen validation, `createChessGame` (whose `'Game is already over'`
throw is caught by the outer handler), the game-status checks, the OpenAI
call with its quota fallback, `validateMove`, and the final response.  When
`validateMove` yields no move (empty legal-move list, unreachable for
coherent engine states since the position is not over), the subsequent
`gameAfterMove.move(undefined)` throws and the outer catch produces a 500;
the exact thrown message is immaterial and modelled as
`'Invalid move: undefined'`. -/
def POST (b : ReqBody) (ai : AiOutcome) (rand : Nat) : ApiResponse :=
  match b with
  | .invalidJson => { status := 400, error := some "Invalid JSON in request body" }
  | .missingFen => { status := 400, error := some "FEN string is required" }
  | .withFen load =>
    match createChessGame load with
    | .error msg => catchResponse msg
    | .ok game =>
      if game.isCheckmate then
        let winner := if game.turnWhite then "Black" else "White"
        { status := 200,
          error := some ("Checkmate! " ++ winner ++ " wins!"),
          gameOver := some true,
          winner := some (some winner),
          reason := some "checkmate" }
      else if game.isDraw then
        { status := 200,
          error := some "Game drawn",
          gameOver := some true,
          winner := some none,
          reason := some (drawReason game) }
      else if game.isGameOver then
        { status := 200,
          error := some "Game over",
          gameOver := some true,
          winner := some none,
          reason := some "unknown" }
      else
        match ai with
        | .quotaError amsg =>
          let randomMove :=
            game.legalMovesSan.get? (rand % game.legalMovesSan.length)
          { status := 200,
            move := randomMove,
            warning := some "Using random move due to API limits",
            originalError := some amsg }
        | .otherError amsg => catchResponse amsg
        | .success none => catchResponse "No move returned from AI"
        | .success (some mv) =>
          match validateMove game mv rand with
          | none => catchResponse "Invalid move: undefined"
          | some vm => successResponse game vm

/-- The model actually used by the route (route.ts:184):
`const model = selectModel(legalMoves.length)` — the argument is the number
of legal moves of the position, not its ply count. -/
def modelFor (g : Game) : String :=
  selectModel g.legalMovesSan.length

end ChessMoveApi

namespace ChessMove2Api

/-- `selectModel` from the chess-move-2 route: takes no argument and always
returns `'gpt-4'`. -/
def selectModel : String := "gpt-4"

/-- The game-phase ternary of the chess-move-2 route's `getChessPrompt`
(lines 129-131 and 298): identical thresholds over
`history({ verbose: true }).length`, again of a game freshly constructed
from the request FEN. -/
def gamePhase (g : Game) : String :=
  let isOpening := g.historyLen < 10
  let isEndgame := g.historyLen > 30
  if isOpening then "Opening" else if isEndgame then "Endgame"
  else "Middlegame"

/-- `getPieceValue` defined inside the chess-move-2 route's
`getChessPrompt`; total on piece types, so the `|| 0` fallback never
fires. -/
def getPieceValue : PType → Int
  | .p => 1
  | .n => 3
  | .b => 3
  | .r => 5
  | .q => 9
  | .k => 0

/-- `isSquareDefended` from the chess-move-2 route: the temp game is
`new Chess(game.fen())`, the same position, so its verbose move list is the
same; the square counts as defended when some generated move of color
`byColor` lands on it. -/
def isSquareDefended (g : Game) (square : String) (byColorWhite : Bool) : Bool :=
  g.verboseMoves.any (fun m => m.toSq == square && m.colorWhite == byColorWhite)

/-- One entry of the route's `hangingPieces` array (piece letter kept as a
`PType`; JavaScript upper-cases it only for display). -/
structure HangingEntry where
  piece : PType
  fromSq : String
  toSq : String
  captured : PType
  value : Int
  defended : Bool
deriving DecidableEq, Repr

/-- `hangingPieces` from the chess-move-2 route's `getChessPrompt`:
filter `allMoves` (the verbose legal moves of the side to move) by
`move.captured && move.color === opponentColor`, then map each survivor to
its entry (the inner `null` guard and `.filter(move => move !== null)` are
together a `filterMap`).  The subsequent in-place sort by descending value
permutes the list and is applied by `hangingPiecesSorted`. -/
def hangingPieces (g : Game) : List HangingEntry :=
  let currentColorWhite := g.turnWhite
  let opponentColorWhite := !currentColorWhite
  (g.verboseMoves.filter
      (fun m => m.captured.isSome && m.colorWhite == opponentColorWhite)).filterMap
    (fun m =>
      match m.captured with
      | none => none
      | some capturedPiece =>
        some { piece := m.piece,
               fromSq := m.fromSq,
               toSq := m.toSq,
               captured := capturedPiece,
               value := getPieceValue capturedPiece,
               defended := isSquareDefended g m.toSq currentColorWhite })

/-- `hangingPieces.sort((a, b) => b.value - a.value)`: descending by
value. -/
def hangingPiecesSorted (g : Game) : List HangingEntry :=
  (hangingPieces g).mergeSort (fun a b => b.value ≤ a.value)

/-- Stated from the specification's words, for comparison with the code:
the hanging-piece list "consists of the legal captures of the opponent's
pieces, each marked as defended exactly when the capture's destination
square is reachable by the opponent in one move".  The opponent's one-move
reachability is not observable from the position's own move list, so it is
taken as an argument. -/
def specHangingPieces (g : Game) (oppReachable : String → Bool) :
    List HangingEntry :=
  (g.verboseMoves.filter (fun m => m.captured.isSome)).filterMap
    (fun m =>
      match m.captured with
      | none => none
      | some capturedPiece =>
        some { piece := m.piece,
               fromSq := m.fromSq,
               toSq := m.toSq,
               captured := capturedPiece,
               value := getPieceValue capturedPiece,
               defended := oppReachable m.toSq })

end ChessMove2Api

namespace ChessAi

/-- Outcome of the `fetch('/api/chess-move', ...)` call in
`src/lib/chess-ai.ts`: the fetch or `response.json()` threw; the response
had `ok === false` (the code then throws `'API request failed'`); or the
body parsed, with `move` the value of its `move` field (`none` when
absent). -/
inductive FetchOutcome
  | failure
  | notOkStatus (status : Nat)
  | ok (move : Option String)

/-- `getAiMove` from `src/lib/chess-ai.ts`.  Returns `none` at once when
`game.isGameOver() || game.isDraw()`.  Otherwise a returned move is
re-validated by `new Chess(game.fen()).move(move)` (modelled by
`moveAccepted`); every failure path lands in the catch block, which returns
`moves[Math.floor(Math.random() * moves.length)] || null` — a random legal
move, or `null` when the list is empty. -/
def getAiMove (g : Game) (fetched : FetchOutcome) (rand : Nat) :
    Option String :=
  if g.isGameOver || g.isDraw then none
  else
    let fallback := g.legalMovesSan.get? (rand % g.legalMovesSan.length)
    match fetched with
    | .failure => fallback
    | .notOkStatus _ => fallback
    | .ok none => fallback
    | .ok (some mv) => if g.moveAccepted mv then some mv else fallback

/-- What the specification asks of a fallback result: a member of the
game's legal-move list, and `null` only if that list is empty. -/
def FallbackSpec (g : Game) (res : Option String) : Prop :=
  match res with
  | none => g.legalMovesSan = []
  | some m => m ∈ g.legalMovesSan

end ChessAi

/-- Stated from the specification's words: the ply count of a position
(one ply per half-move), derived from the FEN's full-move number and side
to move. -/
def plyCount (g : Game) : Nat :=
  2 * (g.fullmoveNumber - 1) + (if g.turnWhite then 0 else 1)

/-- The specification's phase classification over the ply count: "opening
<10 plies, endgame >30 plies, else middlegame". -/
def specPhaseByPly (ply : Nat) : String :=
  if ply < 10 then "Opening" else if ply > 30 then "Endgame"
  else "Middlegame"

/-- The specification's model-selection policy for the chess-move route:
"gpt-4 when the position's ply count exceeds 30, gpt-3.5-turbo
otherwise". -/
def specModelByPly (ply : Nat) : String :=
  if ply > 30 then "gpt-4" else "gpt-3.5-turbo"

/-! Concrete engine states.  Each is the faithful transcription of a real
position loadable by `new Chess(fen)`; the FEN is given at each
definition.  Fields a particular claim's functions never read are filled
with their true values where reasonably enumerable and noted otherwise. -/

def wP : Option Piece := some ⟨true, .p⟩
def wN : Option Piece := some ⟨true, .n⟩
def wB : Option Piece := some ⟨true, .b⟩
def wR : Option Piece := some ⟨true, .r⟩
def wQ : Option Piece := some ⟨true, .q⟩
def wK : Option Piece := some ⟨true, .k⟩
def bP : Option Piece := some ⟨false, .p⟩
def bN : Option Piece := some ⟨false, .n⟩
def bB : Option Piece := some ⟨false, .b⟩
def bR : Option Piece := some ⟨false, .r⟩
def bQ : Option Piece := some ⟨false, .q⟩
def bK : Option Piece := some ⟨false, .k⟩

/-- The 20 SAN legal moves of the standard starting position. -/
def startLegalMoves : List String :=
  ["a3", "a4", "b3", "b4", "c3", "c4", "d3", "d4", "e3", "e4",
   "f3", "f4", "g3", "g4", "h3", "h4", "Na3", "Nc3", "Nf3", "Nh3"]

/-- The standard starting position,
FEN `rnbqkbnr/pppppppp/8/8/8/8/PPPPPPPP/RNBQKBNR w KQkq - 0 1`.
`moveAccepted` records that the engine accepts each legal SAN and also the
from-to string `"e2e4"`, which chess.js's permissive parser resolves to the
legal move `e4` (its value is consulted only at these strings here).
`verboseMoves` is not read by the chess-move route and is left empty;
no first move from the start position gives check. -/
def gStart : Game where
  turnWhite := true
  isCheckmate := false
  isStalemate := false
  isThreefoldRepetition := false
  isInsufficientMaterial := false
  isFiftyMoves := false
  isCheck := false
  board :=
    [bR, bN, bB, bQ, bK, bB, bN, bR] ++ List.replicate 8 bP ++
      List.replicate 32 none ++ List.replicate 8 wP ++
      [wR, wN, wB, wQ, wK, wB, wN, wR]
  legalMovesSan := startLegalMoves
  verboseMoves := []
  historyLen := 0
  fullmoveNumber := 1
  moveAccepted := fun m => startLegalMoves.contains m || m == "e2e4"
  moveGivesCheck := fun _ => false

/-- Fool's mate, FEN
`rnb1kbnr/pppp1ppp/8/4p3/6Pq/5P2/PPPPP2P/RNBQKBNR w KQkq - 1 3`
(after 1.f3 e5 2.g4 Qh4#): White to move and checkmated.  There are no
legal moves and the engine rejects every move string. -/
def gFoolsMate : Game where
  turnWhite := true
  isCheckmate := true
  isStalemate := false
  isThreefoldRepetition := false
  isInsufficientMaterial := false
  isFiftyMoves := false
  isCheck := true
  board :=
    [bR, bN, bB, none, bK, bB, bN, bR] ++
      [bP, bP, bP, bP, none, bP, bP, bP] ++ List.replicate 8 none ++
      [none, none, none, none, bP, none, none, none] ++
      [none, none, none, none, none, none, wP, bQ] ++
      [none, none, none, none, none, wP, none, none] ++
      [wP, wP, wP, wP, wP, none, none, wP] ++
      [wR, wN, wB, wQ, wK, wB, wN, wR]
  legalMovesSan := []
  verboseMoves := []
  historyLen := 0
  fullmoveNumber := 3
  moveAccepted := fun _ => false
  moveGivesCheck := fun _ => false

/-- FEN `7k/8/5R2/8/8/8/QQQQQ3/QQQQQRK1 w - - 0 1`: ten white queens and
two white rooks against a bare black king.  `new Chess` accepts this FEN
(chess.js validates format and king counts, not piece totals), White to
move is not in check (the f6 rook blocks the long diagonal) and is neither
checkmated nor stalemated.  The white material sum is 10·9 + 2·5 = 100.
The move list and move predicates are not read by `evaluateBoard` and are
left trivial. -/
def gBigMaterial : Game where
  turnWhite := true
  isCheckmate := false
  isStalemate := false
  isThreefoldRepetition := false
  isInsufficientMaterial := false
  isFiftyMoves := false
  isCheck := false
  board :=
    (List.replicate 7 none ++ [bK]) ++ List.replicate 8 none ++
      [none, none, none, none, none, wR, none, none] ++
      List.replicate 24 none ++
      [wQ, wQ, wQ, wQ, wQ, none, none, none] ++
      [wQ, wQ, wQ, wQ, wQ, wR, wK, none]
  legalMovesSan := []
  verboseMoves := []
  historyLen := 0
  fullmoveNumber := 1
  moveAccepted := fun _ => false
  moveGivesCheck := fun _ => false

/-- The 14 SAN legal moves of `gRookEndgame`. -/
def rookEndgameLegalMoves : List String :=
  ["Kd3", "Ke3", "Kf3", "Kd4", "Kf4",
   "Re2", "Re3", "Ra1", "Rb1", "Rc1", "Rd1", "Rf1", "Rg1", "Rh1"]

/-- FEN `8/8/4k3/8/4K3/8/8/4R3 w - - 12 40`: a rook endgame at full-move
number 40 (ply count 78), with 14 legal moves, none of which gives
check. -/
def gRookEndgame : Game where
  turnWhite := true
  isCheckmate := false
  isStalemate := false
  isThreefoldRepetition := false
  isInsufficientMaterial := false
  isFiftyMoves := false
  isCheck := false
  board :=
    List.replicate 16 none ++
      [none, none, none, none, bK, none, none, none] ++
      List.replicate 8 none ++
      [none, none, none, none, wK, none, none, none] ++
      List.replicate 16 none ++
      [none, none, none, none, wR, none, none, none]
  legalMovesSan := rookEndgameLegalMoves
  verboseMoves := []
  historyLen := 0
  fullmoveNumber := 40
  moveAccepted := fun m => rookEndgameLegalMoves.contains m
  moveGivesCheck := fun _ => false

/-- The verbose legal moves of `gCaptureDemo`: the pawn push `e5`, the
capture `exd5` of the black d5-pawn, and three king moves.  All are moves
of the side to move, White. -/
def captureDemoVerboseMoves : List VMove :=
  [{ colorWhite := true, piece := .p, fromSq := "e4", toSq := "e5",
     captured := none, san := "e5" },
   { colorWhite := true, piece := .p, fromSq := "e4", toSq := "d5",
     captured := some .p, san := "exd5" },
   { colorWhite := true, piece := .k, fromSq := "a1", toSq := "a2",
     captured := none, san := "Ka2" },
   { colorWhite := true, piece := .k, fromSq := "a1", toSq := "b1",
     captured := none, san := "Kb1" },
   { colorWhite := true, piece := .k, fromSq := "a1", toSq := "b2",
     captured := none, san := "Kb2" }]

/-- FEN `k7/8/8/3p4/4P3/8/8/K7 w - - 0 1`: White to move can capture the
black d5-pawn with `exd5`. -/
def gCaptureDemo : Game where
  turnWhite := true
  isCheckmate := false
  isStalemate := false
  isThreefoldRepetition := false
  isInsufficientMaterial := false
  isFiftyMoves := false
  isCheck := false
  board :=
    ([bK] ++ List.replicate 7 none) ++ List.replicate 16 none ++
      [none, none, none, bP, none, none, none, none] ++
      [none, none, none, none, wP, none, none, none] ++
      List.replicate 16 none ++
      ([wK] ++ List.replicate 7 none)
  legalMovesSan := ["e5", "exd5", "Ka2", "Kb1", "Kb2"]
  verboseMoves := captureDemoVerboseMoves
  historyLen := 0
  fullmoveNumber := 1
  moveAccepted := fun m => ["e5", "exd5", "Ka2", "Kb1", "Kb2"].contains m
  moveGivesCheck := fun _ => false

/-- FEN `7k/5Q2/6K1/8/8/8/8/8 b - - 0 1`: Black to move is stalemated
(king h8 has no move and is not in check). -/
def gStalemate : Game where
  turnWhite := false
  isCheckmate := false
  isStalemate := true
  isThreefoldRepetition := false
  isInsufficientMaterial := false
  isFiftyMoves := false
  isCheck := false
  board :=
    (List.replicate 7 none ++ [bK]) ++
      [none, none, none, none, none, wQ, none, none] ++
      [none, none, none, none, none, none, wK, none] ++
      List.replicate 40 none
  legalMovesSan := []
  verboseMoves := []
  historyLen := 0
  fullmoveNumber := 1
  moveAccepted := fun _ => false
  moveGivesCheck := fun _ => false

/-- FEN `k7/8/8/8/8/8/8/K6R w - - 0 1`: White is up exactly one rook
(material sum +5); an ordinary live position. -/
def gRookUp : Game where
  turnWhite := true
  isCheckmate := false
  isStalemate := false
  isThreefoldRepetition := false
  isInsufficientMaterial := false
  isFiftyMoves := false
  isCheck := false
  board :=
    ([bK] ++ List.replicate 7 none) ++ List.replicate 48 none ++
      ([wK] ++ List.replicate 6 none ++ [wR])
  legalMovesSan := ["Ka2", "Kb1", "Kb2", "Rh2", "Rh3", "Rh4", "Rh5",
    "Rh6", "Rh7", "Rh8+", "Rb1", "Rc1", "Rd1", "Re1", "Rf1", "Rg1"]
  verboseMoves := []
  historyLen := 0
  fullmoveNumber := 1
  moveAccepted := fun m => ["Ka2", "Kb1", "Kb2", "Rh2", "Rh3", "Rh4",
    "Rh5", "Rh6", "Rh7", "Rh8+", "Rb1", "Rc1", "Rd1", "Re1", "Rf1",
    "Rg1"].contains m
  moveGivesCheck := fun m => m == "Rh8+"

/-! Helper lemmas. -/

/-- The evaluator's fold agrees with the specification's per-square sum. -/
theorem SimpleEval.materialScore_eq_spec (board : List (Option Piece)) :
    SimpleEval.materialScore board =
      SimpleEval.specMaterialScore board := by
  suffices h : ∀ (l : List (Option Piece)) (a : Int),
      l.foldl
        (fun acc sq =>
          match sq with
          | some pc => acc + (if pc.white then SimpleEval.PIECE_VALUES pc.ptype
                              else -(SimpleEval.PIECE_VALUES pc.ptype))
          | none => acc)
        a = a + SimpleEval.specMaterialScore l by
    simpa [SimpleEval.materialScore] using h board 0
  intro l
  induction l with
  | nil => intro a; simp [SimpleEval.specMaterialScore]
  | cons hd tl ih =>
    intro a
    cases hd with
    | none =>
      simp only [List.foldl, SimpleEval.specMaterialScore, List.map_cons,
        List.sum_cons] at *
      rw [ih]
      ring
    | some pc =>
      simp only [List.foldl, SimpleEval.specMaterialScore, List.map_cons,
        List.sum_cons] at *
      rw [ih]
      cases hpt : pc.ptype <;> cases hw : pc.white <;>
        simp [SimpleEval.PIECE_VALUES, SimpleEval.specPieceValue] <;> ring

/-- Decompose `isGameOver() || isDraw() = false` into the individual
engine flags. -/
theorem gameFlags_of_not_over (g : Game)
    (h : (g.isGameOver || g.isDraw) = false) :
    g.isCheckmate = false ∧ g.isStalemate = false ∧
      g.isThreefoldRepetition = false ∧ g.isInsufficientMaterial = false ∧
      g.isFiftyMoves = false ∧ g.isDraw = false ∧ g.isGameOver = false := by
  simp only [Game.isGameOver, Game.isDraw, Bool.or_eq_false_iff] at h ⊢
  tauto

/-- The lower-cased message thrown on a malformed FEN always contains the
substring `"invalid fen"`, whatever the chess.js validation detail is. -/
theorem strHas_lower_invalid_fen (d : String) :
    strHas (lowerStr ("Invalid FEN: " ++ d)) "invalid fen" = true := by
  unfold strHas lowerStr
  apply decide_eq_true
  have hdata : ("Invalid FEN: " ++ d).data =
      "Invalid FEN: ".data ++ d.data := by
    cases d
    rfl
  rw [hdata, List.map_append]
  have h1 : ("Invalid FEN: ".data.map Char.toLower) = "invalid fen: ".data := by
    decide
  rw [h1]
  have h2 : "invalid fen: ".data = "invalid fen".data ++ ": ".data := by
    decide
  rw [h2, List.append_assoc]
  exact ⟨[], ": ".data ++ d.data.map Char.toLower, by simp⟩

/-- The client fallback `moves[...] || null` always satisfies the
specification's fallback contract. -/
theorem fallbackSpec_get (g : Game) (r : Nat) :
    ChessAi.FallbackSpec g
      (g.legalMovesSan.get? (r % g.legalMovesSan.length)) := by
  cases hres : g.legalMovesSan.get? (r % g.legalMovesSan.length) with
  | some m =>
    simpa [ChessAi.FallbackSpec] using List.get?_mem hres
  | none =>
    simp only [ChessAi.FallbackSpec]
    by_contra hne
    have hpos : 0 < g.legalMovesSan.length := List.length_pos.mpr hne
    have hlt : r % g.legalMovesSan.length < g.legalMovesSan.length :=
      Nat.mod_lt _ hpos
    rw [List.get?_eq_get hlt] at hres
    cases hres

/-! Claim theorems. -/

/-- C2, counterexample: `evaluateBoard` also reaches absolute value 100 on
non-checkmate positions.  On the loadable position
`7k/8/5R2/8/8/8/QQQQQ3/QQQQQRK1 w - - 0 1` (ten white queens and two white
rooks versus a bare king, material sum exactly 100, White to move, not
checkmate) the evaluator returns 100, so |evaluateBoard| = 100 does not
imply checkmate. -/
theorem c2_eval_100_without_checkmate :
    SimpleEval.evaluateBoard gBigMaterial = 100 ∧
      gBigMaterial.isCheckmate = false := by decide

/-- C2, amended: in every checkmate position `evaluateBoard` returns ±100
with the sign favoring the side not to move (−100 when White is to move and
checkmated, +100 when Black is); the converse implication of the original
claim fails (see the counterexample). -/
theorem c2_checkmate_eval_sign (g : Game) (h : g.isCheckmate = true) :
    SimpleEval.evaluateBoard g =
      (if g.turnWhite then (-100 : Int) else 100) := by
  simp [SimpleEval.evaluateBoard, h]

/-- C2 witness: the fool's-mate position (White to move, checkmated)
evaluates to −100. -/
theorem c2_checkmate_eval_sign_witness :
    SimpleEval.evaluateBoard gFoolsMate = -100 := by
  have h := c2_checkmate_eval_sign gFoolsMate (by decide)
  have ht : gFoolsMate.turnWhite = true := rfl
  rw [ht] at h
  simpa using h

/-- C3: on a position that is neither checkmate nor a draw, `evaluateBoard`
returns exactly the specification's signed material sum (the rounding to
one decimal is the identity on these integer scores); and on any draw by
insufficient material, threefold repetition, or stalemate it returns 0.
The hypothesis records that checkmate excludes those three draw conditions
(a checkmate position is in check with no legal moves, so it is not a
stalemate, its side can be mated so material is not insufficient, and a
repetition count only accrues along a playable history). -/
theorem c3_eval_material_and_draw (g : Game)
    (hexcl : g.isCheckmate = true →
      g.isStalemate = false ∧ g.isInsufficientMaterial = false ∧
        g.isThreefoldRepetition = false) :
    (g.isCheckmate = false → g.isDraw = false →
      SimpleEval.evaluateBoard g = SimpleEval.specMaterialScore g.board) ∧
    ((g.isInsufficientMaterial || g.isThreefoldRepetition ||
        g.isStalemate) = true → SimpleEval.evaluateBoard g = 0) := by
  constructor
  · intro hcm hdr
    simp only [Game.isDraw, Bool.or_eq_false_iff] at hdr
    simp [SimpleEval.evaluateBoard, hcm, Game.isDraw, hdr.1, hdr.2,
      SimpleEval.materialScore_eq_spec]
  · intro hflag
    cases hcmv : g.isCheckmate with
    | true =>
      obtain ⟨hs, hi, ht⟩ := hexcl hcmv
      rw [hs, hi, ht] at hflag
      simp at hflag
    | false =>
      have hcond : (g.isDraw || g.isThreefoldRepetition ||
          g.isInsufficientMaterial) = true := by
        simp only [Game.isDraw, Bool.or_eq_true] at hflag ⊢
        tauto
      simp [SimpleEval.evaluateBoard, hcmv, hcond]

/-- C3 witness: the rook-up position evaluates to the specification's
material sum, and the stalemate position evaluates to 0. -/
theorem c3_eval_material_and_draw_witness :
    SimpleEval.evaluateBoard gRookUp =
        SimpleEval.specMaterialScore gRookUp.board ∧
      SimpleEval.evaluateBoard gStalemate = 0 :=
  ⟨(c3_eval_material_and_draw gRookUp (by decide)).1 (by decide) (by decide),
   (c3_eval_material_and_draw gStalemate (by decide)).2 (by decide)⟩

/-- C4: the claim describes the route's own (dead) checkmate branch, but
the code never reaches it.  POSTing the fool's-mate FEN
`rnb1kbnr/pppp1ppp/8/4p3/6Pq/5P2/PPPPP2P/RNBQKBNR w KQkq - 1 3`
(side to move checkmated) makes `createChessGame` throw
`'Game is already over'` before the checkmate check at route.ts:151 runs,
so the response is HTTP 400 with `gameOver: false` and no `reason` field —
not the claimed 200 with `reason: "checkmate"`. -/
theorem c4_checkmate_fen_gets_400 :
    ChessMoveApi.POST
      (ChessMoveApi.ReqBody.withFen (ChessMoveApi.LoadResult.ok gFoolsMate))
      (ChessMoveApi.AiOutcome.success (some "e4")) 0 =
    { status := 400, error := some "Game is already over",
      gameOver := some false } := by decide

/-- C5: a POST with a missing (or falsy) `fen` field, with a FEN the engine
rejects as malformed, or with a FEN of an already-finished position is
answered with HTTP status 400, for every model-call outcome and random
draw. -/
theorem c5_bad_input_400 (ai : ChessMoveApi.AiOutcome) (rand : Nat) :
    (ChessMoveApi.POST ChessMoveApi.ReqBody.missingFen ai rand).status =
        400 ∧
    (∀ d, (ChessMoveApi.POST
        (ChessMoveApi.ReqBody.withFen (ChessMoveApi.LoadResult.invalidFen d))
        ai rand).status = 400) ∧
    (∀ g : Game, (g.isGameOver || g.isDraw) = true →
      (ChessMoveApi.POST
        (ChessMoveApi.ReqBody.withFen (ChessMoveApi.LoadResult.ok g))
        ai rand).status = 400) := by
  refine ⟨rfl, ?_, ?_⟩
  · intro d
    show (ChessMoveApi.catchResponse ("Invalid FEN: " ++ d)).status = 400
    simp [ChessMoveApi.catchResponse, strHas_lower_invalid_fen d]
  · intro g hover
    simp only [ChessMoveApi.POST, ChessMoveApi.createChessGame, hover,
      if_true]
    decide

/-- C5 witness: the stalemate FEN `7k/5Q2/6K1/8/8/8/8/8 b - - 0 1` (an
already-finished position), a malformed FEN, and a missing `fen` field all
produce status 400. -/
theorem c5_bad_input_400_witness :
    (ChessMoveApi.POST ChessMoveApi.ReqBody.missingFen
        (ChessMoveApi.AiOutcome.success (some "e4")) 0).status = 400 ∧
    (ChessMoveApi.POST
        (ChessMoveApi.ReqBody.withFen
          (ChessMoveApi.LoadResult.invalidFen
            "must contain six space-delimited fields"))
        (ChessMoveApi.AiOutcome.success (some "e4")) 0).status = 400 ∧
    (ChessMoveApi.POST
        (ChessMoveApi.ReqBody.withFen (ChessMoveApi.LoadResult.ok gStalemate))
        (ChessMoveApi.AiOutcome.success (some "e4")) 0).status = 400 := by
  obtain ⟨h1, h2, h3⟩ :=
    c5_bad_input_400 (ChessMoveApi.AiOutcome.success (some "e4")) 0
  exact ⟨h1, h2 "must contain six space-delimited fields",
    h3 gStalemate (by decide)⟩

/-- C6: when the position is valid and unfinished and the model call fails
with a quota/429 error, the route answers 200 with a `move` drawn from the
position's legal-move list and the literal `warning` field. -/
theorem c6_quota_fallback_200 (g : Game) (amsg : String) (rand : Nat)
    (hok : (g.isGameOver || g.isDraw) = false)
    (hne : g.legalMovesSan ≠ []) :
    (ChessMoveApi.POST
        (ChessMoveApi.ReqBody.withFen (ChessMoveApi.LoadResult.ok g))
        (ChessMoveApi.AiOutcome.quotaError amsg) rand).status = 200 ∧
    (∃ m, (ChessMoveApi.POST
        (ChessMoveApi.ReqBody.withFen (ChessMoveApi.LoadResult.ok g))
        (ChessMoveApi.AiOutcome.quotaError amsg) rand).move = some m ∧
      m ∈ g.legalMovesSan) ∧
    (ChessMoveApi.POST
        (ChessMoveApi.ReqBody.withFen (ChessMoveApi.LoadResult.ok g))
        (ChessMoveApi.AiOutcome.quotaError amsg) rand).warning =
      some "Using random move due to API limits" := by
  obtain ⟨hcm, hst, h3, hins, h50, hdr, hgo⟩ := gameFlags_of_not_over g hok
  have hpos : 0 < g.legalMovesSan.length := List.length_pos.mpr hne
  have hlt : rand % g.legalMovesSan.length < g.legalMovesSan.length :=
    Nat.mod_lt _ hpos
  have hget := List.get?_eq_get hlt
  have hred : ChessMoveApi.POST
      (ChessMoveApi.ReqBody.withFen (ChessMoveApi.LoadResult.ok g))
      (ChessMoveApi.AiOutcome.quotaError amsg) rand =
      { status := 200,
        move := g.legalMovesSan.get? (rand % g.legalMovesSan.length),
        warning := some "Using random move due to API limits",
        originalError := some amsg } := by
    simp [ChessMoveApi.POST, ChessMoveApi.createChessGame, hok, hcm, hdr,
      hgo]
  rw [hred]
  refine ⟨rfl, ⟨g.legalMovesSan.get ⟨rand % g.legalMovesSan.length, hlt⟩,
    ?_, List.get_mem _ _ _⟩, rfl⟩
  exact hget

/-- C6 witness: from the starting position with a quota error and random
draw 0, the route answers 200, a legal move, and the warning. -/
theorem c6_quota_fallback_200_witness :
    (ChessMoveApi.POST
        (ChessMoveApi.ReqBody.withFen (ChessMoveApi.LoadResult.ok gStart))
        (ChessMoveApi.AiOutcome.quotaError "insufficient_quota") 0).status =
        200 ∧
    (∃ m, (ChessMoveApi.POST
        (ChessMoveApi.ReqBody.withFen (ChessMoveApi.LoadResult.ok gStart))
        (ChessMoveApi.AiOutcome.quotaError "insufficient_quota") 0).move =
        some m ∧ m ∈ gStart.legalMovesSan) ∧
    (ChessMoveApi.POST
        (ChessMoveApi.ReqBody.withFen (ChessMoveApi.LoadResult.ok gStart))
        (ChessMoveApi.AiOutcome.quotaError "insufficient_quota") 0).warning =
      some "Using random move due to API limits" :=
  c6_quota_fallback_200 gStart "insufficient_quota" 0 (by decide) (by decide)

/-- C7, counterexample: the prompt builders do not classify the phase by
the position's ply count.  The endgame FEN `8/8/4k3/8/4K3/8/8/4R3 w - - 12 40`
has ply count 78 (> 30, so the claim requires "Endgame"), yet both prompt
builders report "Opening", because they measure `history().length` of the
game freshly constructed from the FEN, which is 0. -/
theorem c7_phase_not_by_ply :
    ChessMoveApi.gamePhase gRookEndgame = "Opening" ∧
    ChessMove2Api.gamePhase gRookEndgame = "Opening" ∧
    plyCount gRookEndgame = 78 ∧
    specPhaseByPly (plyCount gRookEndgame) = "Endgame" := by decide

/-- C7, amended: both prompt builders classify the phase from the loaded
game's move-history length; a game constructed from the request FEN has an
empty history, so the embedded phase is always "Opening" (the <10 / >30
thresholds exist in the code but compare against 0). -/
theorem c7_phase_always_opening (g : Game) (hfresh : g.historyLen = 0) :
    ChessMoveApi.gamePhase g = "Opening" ∧
    ChessMove2Api.gamePhase g = "Opening" := by
  constructor <;>
    simp [ChessMoveApi.gamePhase, ChessMove2Api.gamePhase, hfresh]

/-- C7 witness: the starting-position game (empty history) is classified as
"Opening" by both prompt builders. -/
theorem c7_phase_always_opening_witness :
    ChessMoveApi.gamePhase gStart = "Opening" ∧
    ChessMove2Api.gamePhase gStart = "Opening" :=
  c7_phase_always_opening gStart (by decide)

/-- C1, counterexample: the returned move need not be a member of the
legal-move list.  From the starting position, when the model answers the
from-to string `"e2e4"`, chess.js's permissive parser accepts it, so
`validateMove` returns it verbatim and the response's `move` is `"e2e4"` —
which is not a member of the SAN legal-move list (that list contains
`"e4"`). -/
theorem c1_returned_move_not_in_san_list :
    (ChessMoveApi.POST
        (ChessMoveApi.ReqBody.withFen (ChessMoveApi.LoadResult.ok gStart))
        (ChessMoveApi.AiOutcome.success (some "e2e4")) 0).move =
      some "e2e4" ∧
    "e2e4" ∉ gStart.legalMovesSan := by decide

/-- C1, amended: whenever a chess-move response contains a `move` field,
applying that move to the position decoded from the request's FEN never
throws — the move is either the model's string, returned only when the
engine accepts it, or a member of the legal-move list (every member of
which the engine accepts, per the hypothesis).  Membership in the SAN
legal-move list itself is not guaranteed (see the counterexample). -/
theorem c1_returned_move_accepted (g : Game) (ai : ChessMoveApi.AiOutcome)
    (rand : Nat) (mv : String)
    (hleg : ∀ m ∈ g.legalMovesSan, g.moveAccepted m = true)
    (hmv : (ChessMoveApi.POST
        (ChessMoveApi.ReqBody.withFen (ChessMoveApi.LoadResult.ok g))
        ai rand).move = some mv) :
    g.moveAccepted mv = true := by
  by_cases hover : (g.isGameOver || g.isDraw) = true
  · simp [ChessMoveApi.POST, ChessMoveApi.createChessGame, hover,
      ChessMoveApi.catchResponse] at hmv
  · have hok : (g.isGameOver || g.isDraw) = false := by
      cases h : (g.isGameOver || g.isDraw)
      · rfl
      · exact absurd h hover
    obtain ⟨hcm, hst, h3, hins, h50, hdr, hgo⟩ := gameFlags_of_not_over g hok
    cases ai with
    | quotaError amsg =>
      have hred : (ChessMoveApi.POST
          (ChessMoveApi.ReqBody.withFen (ChessMoveApi.LoadResult.ok g))
          (ChessMoveApi.AiOutcome.quotaError amsg) rand).move =
          g.legalMovesSan.get? (rand % g.legalMovesSan.length) := by
        simp [ChessMoveApi.POST, ChessMoveApi.createChessGame, hok, hcm,
          hdr, hgo]
      rw [hred] at hmv
      exact hleg mv (List.get?_mem hmv)
    | otherError amsg =>
      simp [ChessMoveApi.POST, ChessMoveApi.createChessGame, hok, hcm, hdr,
        hgo, ChessMoveApi.catchResponse] at hmv
    | success content =>
      cases content with
      | none =>
        simp [ChessMoveApi.POST, ChessMoveApi.createChessGame, hok, hcm,
          hdr, hgo, ChessMoveApi.catchResponse] at hmv
      | some s =>
        by_cases hacc : g.moveAccepted s = true
        · have hred : (ChessMoveApi.POST
              (ChessMoveApi.ReqBody.withFen (ChessMoveApi.LoadResult.ok g))
              (ChessMoveApi.AiOutcome.success (some s)) rand).move =
              some s := by
            simp [ChessMoveApi.POST, ChessMoveApi.createChessGame,
              ChessMoveApi.validateMove, ChessMoveApi.successResponse, hok,
              hcm, hdr, hgo, hacc]
          rw [hred] at hmv
          obtain rfl : s = mv := Option.some.inj hmv
          exact hacc
        · have haccf : g.moveAccepted s = false := by
            cases h : g.moveAccepted s
            · rfl
            · exact absurd h hacc
          cases hfb : g.legalMovesSan[rand % g.legalMovesSan.length]? with
          | none =>
            have hred : (ChessMoveApi.POST
                (ChessMoveApi.ReqBody.withFen (ChessMoveApi.LoadResult.ok g))
                (ChessMoveApi.AiOutcome.success (some s)) rand).move =
                none := by
              simp [ChessMoveApi.POST, ChessMoveApi.createChessGame,
                ChessMoveApi.validateMove, ChessMoveApi.catchResponse, hok,
                hcm, hdr, hgo, haccf, hfb]
            rw [hred] at hmv
            cases hmv
          | some fb =>
            have hred : (ChessMoveApi.POST
                (ChessMoveApi.ReqBody.withFen (ChessMoveApi.LoadResult.ok g))
                (ChessMoveApi.AiOutcome.success (some s)) rand).move =
                some fb := by
              simp [ChessMoveApi.POST, ChessMoveApi.createChessGame,
                ChessMoveApi.validateMove, ChessMoveApi.successResponse,
                hok, hcm, hdr, hgo, haccf, hfb]
            rw [hred] at hmv
            have heq : fb = mv := Option.some.inj hmv
            have hfb' : g.legalMovesSan.get?
                (rand % g.legalMovesSan.length) = some fb := by
              simpa using hfb
            exact heq ▸ hleg fb (List.get?_mem hfb')

/-- C1 witness: from the starting position, when the model answers the SAN
`"e4"`, the response carries it and the engine accepts it. -/
theorem c1_returned_move_accepted_witness :
    gStart.moveAccepted "e4" = true :=
  c1_returned_move_accepted gStart
    (ChessMoveApi.AiOutcome.success (some "e4")) 0 "e4" (by decide)
    (by decide)

/-- C8, counterexample: on the position `k7/8/8/3p4/4P3/8/8/K7 w - - 0 1`
White has the legal capture `exd5` of a black pawn, so the list the claim
describes is non-empty, yet the route's `hangingPieces` is empty: its
filter demands `move.color === opponentColor`, and every generated move
carries the side-to-move's color. -/
theorem c8_hanging_list_empty_despite_capture :
    ChessMove2Api.hangingPieces gCaptureDemo = [] ∧
    ChessMove2Api.specHangingPieces gCaptureDemo (fun _ => false) ≠ [] := by
  decide

/-- C8, amended: the hanging-piece list embedded in the chess-move-2 prompt
is always empty — the filter requires the moving piece's color to equal the
opponent's color, but every move in `moves({ verbose: true })` has the
side-to-move's color — so no capture entries and no defended marks are ever
emitted. -/
theorem c8_hanging_list_always_empty (g : Game)
    (hcolor : ∀ m ∈ g.verboseMoves, m.colorWhite = g.turnWhite) :
    ChessMove2Api.hangingPieces g = [] ∧
    ChessMove2Api.hangingPiecesSorted g = [] := by
  have hfil : g.verboseMoves.filter
      (fun m => m.captured.isSome && m.colorWhite == !g.turnWhite) = [] := by
    apply List.filter_eq_nil_iff.mpr
    intro m hm
    have hc := hcolor m hm
    simp [hc]
  have key : ChessMove2Api.hangingPieces g = [] := by
    unfold ChessMove2Api.hangingPieces
    simp [hfil]
  exact ⟨key, by simp [ChessMove2Api.hangingPiecesSorted, key]⟩

/-- C8 witness: the capture-available position produces an empty hanging
list, sorted or not. -/
theorem c8_hanging_list_always_empty_witness :
    ChessMove2Api.hangingPieces gCaptureDemo = [] ∧
    ChessMove2Api.hangingPiecesSorted gCaptureDemo = [] :=
  c8_hanging_list_always_empty gCaptureDemo (by decide)

/-- C9, counterexample: the chess-move route does not select its model by
ply count.  The rook endgame `8/8/4k3/8/4K3/8/8/4R3 w - - 12 40` has ply
count 78 (> 30, so the claim requires gpt-4) but only 14 legal moves, and
the route passes `legalMoves.length` to `selectModel`, yielding
gpt-3.5-turbo. -/
theorem c9_model_not_by_ply :
    ChessMoveApi.modelFor gRookEndgame = "gpt-3.5-turbo" ∧
    specModelByPly (plyCount gRookEndgame) = "gpt-4" := by decide

/-- C9, amended: the chess-move route selects gpt-4 exactly when the
position's legal-move count exceeds 30 and gpt-3.5-turbo otherwise, while
the chess-move-2 variant always selects gpt-4. -/
theorem c9_model_by_move_count (g : Game) :
    (g.legalMovesSan.length > 30 → ChessMoveApi.modelFor g = "gpt-4") ∧
    (g.legalMovesSan.length ≤ 30 →
      ChessMoveApi.modelFor g = "gpt-3.5-turbo") ∧
    ChessMove2Api.selectModel = "gpt-4" := by
  refine ⟨fun h => ?_, fun h => ?_, rfl⟩
  · simp [ChessMoveApi.modelFor, ChessMoveApi.selectModel, h]
  · have h' : ¬(g.legalMovesSan.length > 30) := by omega
    simp [ChessMoveApi.modelFor, ChessMoveApi.selectModel, h']

/-- C9 witness: the 14-move rook endgame selects gpt-3.5-turbo on the
chess-move route; the chess-move-2 route selects gpt-4. -/
theorem c9_model_by_move_count_witness :
    ChessMoveApi.modelFor gRookEndgame = "gpt-3.5-turbo" ∧
    ChessMove2Api.selectModel = "gpt-4" :=
  ⟨(c9_model_by_move_count gRookEndgame).2.1 (by decide),
   (c9_model_by_move_count gRookEndgame).2.2⟩

/-- C10: the client `getAiMove` returns `null` whenever the game is over or
drawn, regardless of what the network would do; otherwise, on a fetch
failure, a non-OK status, or a missing/rejected returned move it returns a
member of the game's legal-move list (`null` only when that list is empty),
and an endpoint move that re-validates against the current position is
returned as is. -/
theorem c10_get_ai_move_contract (g : Game) (rand : Nat) :
    ((g.isGameOver || g.isDraw) = true →
      ∀ f, ChessAi.getAiMove g f rand = none) ∧
    ((g.isGameOver || g.isDraw) = false →
      ChessAi.FallbackSpec g
          (ChessAi.getAiMove g ChessAi.FetchOutcome.failure rand) ∧
      (∀ s, ChessAi.FallbackSpec g
          (ChessAi.getAiMove g (ChessAi.FetchOutcome.notOkStatus s) rand)) ∧
      ChessAi.FallbackSpec g
          (ChessAi.getAiMove g (ChessAi.FetchOutcome.ok none) rand) ∧
      (∀ m, g.moveAccepted m = false →
        ChessAi.FallbackSpec g
          (ChessAi.getAiMove g (ChessAi.FetchOutcome.ok (some m)) rand)) ∧
      (∀ m, g.moveAccepted m = true →
        ChessAi.getAiMove g (ChessAi.FetchOutcome.ok (some m)) rand =
          some m)) := by
  constructor
  · intro hover f
    simp [ChessAi.getAiMove, hover]
  · intro hok
    refine ⟨?_, fun s => ?_, ?_, fun m hm => ?_, fun m hm => ?_⟩
    · simpa [ChessAi.getAiMove, hok] using fallbackSpec_get g rand
    · simpa [ChessAi.getAiMove, hok] using fallbackSpec_get g rand
    · simpa [ChessAi.getAiMove, hok] using fallbackSpec_get g rand
    · simpa [ChessAi.getAiMove, hok, hm] using fallbackSpec_get g rand
    · simp [ChessAi.getAiMove, hok, hm]

/-- C10 witness: on the stalemate game the client returns `null` without
consulting the network; from the starting position a fetch failure falls
back to a legal move, and an accepted endpoint move `"e4"` is returned as
is. -/
theorem c10_get_ai_move_contract_witness :
    ChessAi.getAiMove gStalemate ChessAi.FetchOutcome.failure 0 = none ∧
    ChessAi.FallbackSpec gStart
      (ChessAi.getAiMove gStart ChessAi.FetchOutcome.failure 0) ∧
    ChessAi.getAiMove gStart (ChessAi.FetchOutcome.ok (some "e4")) 0 =
      some "e4" :=
  ⟨(c10_get_ai_move_contract gStalemate 0).1 (by decide)
      ChessAi.FetchOutcome.failure,
   ((c10_get_ai_move_contract gStart 0).2 (by decide)).1,
   ((c10_get_ai_move_contract gStart 0).2 (by decide)).2.2.2.2 "e4"
     (by decide)⟩
